import Mathlib

set_option maxRecDepth 100000

/-!
Shallow embedding of the emoji_collector landmark-inference core:
`EmojiMatcher.analyzeExpression` (src/src/EmojiMatcher.ts) and
`FaceTracker.calculateDirection` (src/FaceTracker.ts), with numbers
modelled as exact rationals and the landmark frame as a list of points.
-/

namespace EmojiCollector

/-- A facial landmark: normalized x, y coordinates and relative depth z. -/
structure Landmark where
  x : ℚ
  y : ℚ
  z : ℚ
deriving DecidableEq, Repr

instance : Inhabited Landmark := ⟨⟨0, 0, 0⟩⟩

/-- A landmark frame: the ordered list of detected facial points. -/
abbrev Frame := List Landmark

/-- Landmark access `landmarks[i]` of the source; out-of-range reads yield the default point
(every verified path guards the length first). -/
def lm (landmarks : Frame) (i : Nat) : Landmark :=
  landmarks.getD i default

/-- The `Expression` enum of EmojiMatcher.ts. -/
inductive Expression where
  | NEUTRAL | HAPPY | VERY_HAPPY | SAD | SURPRISED | ANGRY
  | WINK | KISS | TONGUE_OUT | THINKING | SLEEPY | CONFUSED
deriving DecidableEq, Repr

/-- The `HeadDirection` enum of FaceTracker.ts. -/
inductive HeadDirection where
  | CENTER | LEFT | RIGHT | UP | DOWN
deriving DecidableEq, Repr

/-- The fixed glyph table `emojiMap` of EmojiMatcher.ts (the source file's
literal string contents, transcribed byte-for-byte as unicode escapes). -/
def emojiMap : Expression → String
  | .NEUTRAL => "üòê"
  | .HAPPY => "üôÇ"
  | .VERY_HAPPY => "üòÑ"
  | .SAD => "üò¢"
  | .SURPRISED => "üòÆ"
  | .ANGRY => "üò†"
  | .WINK => "üòâ"
  | .KISS => "üòò"
  | .TONGUE_OUT => "üòõ"
  | .THINKING => "ü§î"
  | .SLEEPY => "üò¥"
  | .CONFUSED => "üòï"

/-- Result record of `analyzeExpression`. -/
structure ExpressionResult where
  expression : Expression
  emoji : String
  confidence : ℚ
deriving DecidableEq, Repr

/-- The rolling state of the matcher: fields `lastExpression` and
`expressionStability` of the `EmojiMatcher` class. -/
structure MatcherState where
  lastExpression : Expression
  expressionStability : Nat
deriving DecidableEq, Repr

/-- Initial matcher state (field initializers of EmojiMatcher). -/
def initialMatcherState : MatcherState := ⟨.NEUTRAL, 0⟩

end EmojiCollector

namespace EmojiCollector

/-- The `Math.abs` function on exact rationals. -/
def mathAbs (q : ℚ) : ℚ := if q < 0 then -q else q

theorem mathAbs_eq_abs (q : ℚ) : mathAbs q = |q| := by
  rcases lt_or_le q 0 with h | h
  · rw [mathAbs, if_pos h, abs_of_neg h]
  · rw [mathAbs, if_neg (not_lt.mpr h), abs_of_nonneg h]

/-- The `calculateMouthOpenness` helper of EmojiMatcher.ts. -/
def calculateMouthOpenness (landmarks : Frame) : ℚ :=
  let upperLip := lm landmarks 13
  let lowerLip := lm landmarks 14
  let upperInner := lm landmarks 12
  let lowerInner := lm landmarks 15
  let outerDistance := mathAbs (lowerLip.y - upperLip.y)
  let innerDistance := mathAbs (lowerInner.y - upperInner.y)
  (outerDistance + innerDistance) / 2

/-- The `calculateSmileLevel` helper of EmojiMatcher.ts. -/
def calculateSmileLevel (landmarks : Frame) : ℚ :=
  let leftCorner := lm landmarks 61
  let rightCorner := lm landmarks 291
  let upperLipCenter := lm landmarks 0
  let lowerLipCenter := lm landmarks 17
  let mouthCenterY := (upperLipCenter.y + lowerLipCenter.y) / 2
  let avgCornerY := (leftCorner.y + rightCorner.y) / 2
  let mouthWidth := mathAbs (rightCorner.x - leftCorner.x)
  let verticalSmile := mouthCenterY - avgCornerY
  let widthFactor := if mouthWidth > 0.15 then (0.02 : ℚ) else 0
  verticalSmile + widthFactor

/-- The `calculateEyebrowRaise` helper of EmojiMatcher.ts. -/
def calculateEyebrowRaise (landmarks : Frame) : ℚ :=
  let leftBrow1 := lm landmarks 70
  let leftBrow2 := lm landmarks 63
  let leftBrow3 := lm landmarks 105
  let rightBrow1 := lm landmarks 300
  let rightBrow2 := lm landmarks 293
  let rightBrow3 := lm landmarks 334
  let leftEyeTop := lm landmarks 159
  let rightEyeTop := lm landmarks 386
  let leftBrowAvg := (leftBrow1.y + leftBrow2.y + leftBrow3.y) / 3
  let rightBrowAvg := (rightBrow1.y + rightBrow2.y + rightBrow3.y) / 3
  let leftDistance := leftEyeTop.y - leftBrowAvg
  let rightDistance := rightEyeTop.y - rightBrowAvg
  (leftDistance + rightDistance) / 2

/-- The `eye` argument of `calculateEyeOpenness`. -/
inductive EyeSide where
  | left | right
deriving DecidableEq, Repr

/-- The `calculateEyeOpenness` helper of EmojiMatcher.ts: the source loops `i` over the
paired top/bottom index arrays, accumulating vertical gaps. -/
def calculateEyeOpenness (landmarks : Frame) (eye : EyeSide) : ℚ :=
  let topIndices : List Nat :=
    match eye with
    | .left => [159, 158, 157, 173]
    | .right => [386, 385, 384, 398]
  let bottomIndices : List Nat :=
    match eye with
    | .left => [145, 144, 143, 153]
    | .right => [374, 373, 372, 380]
  let numPoints := min topIndices.length bottomIndices.length
  let totalDistance := (List.range numPoints).foldl
    (fun acc i =>
      acc + mathAbs ((lm landmarks (bottomIndices.getD i 0)).y - (lm landmarks (topIndices.getD i 0)).y)) 0
  totalDistance / (numPoints : ℚ)

/-- The `calculateMouthWidth` helper of EmojiMatcher.ts. -/
def calculateMouthWidth (landmarks : Frame) : ℚ :=
  let leftCorner := lm landmarks 61
  let rightCorner := lm landmarks 291
  mathAbs (rightCorner.x - leftCorner.x)

/-- The `calculateLipsPucker` helper of EmojiMatcher.ts. -/
def calculateLipsPucker (landmarks : Frame) : ℚ :=
  let upperLip := lm landmarks 0
  let lowerLip := lm landmarks 17
  let leftCorner := lm landmarks 61
  let rightCorner := lm landmarks 291
  let lipCenterX := (upperLip.x + lowerLip.x) / 2
  let cornerCenterX := (leftCorner.x + rightCorner.x) / 2
  mathAbs (lipCenterX - cornerCenterX)

/-- The denominator of the `calculateHeadTilt` division: `deltaX + 0.0001`. -/
def headTiltDenominator (landmarks : Frame) : ℚ :=
  (lm landmarks 263).x - (lm landmarks 33).x + 0.0001

/-- The `calculateHeadTilt` helper of EmojiMatcher.ts. -/
def calculateHeadTilt (landmarks : Frame) : ℚ :=
  let leftEye := lm landmarks 33
  let rightEye := lm landmarks 263
  let deltaY := rightEye.y - leftEye.y
  deltaY / headTiltDenominator landmarks


end EmojiCollector

namespace EmojiCollector

/-- The if/else-if rule ladder of `analyzeExpression` (EmojiMatcher.ts lines
65-132): computes the eight metrics and returns the freshly detected
expression together with that rule's fixed confidence constant. -/
def detectExpression (landmarks : Frame) : Expression × ℚ :=
  let mouthOpenness := calculateMouthOpenness landmarks
  let smileLevel := calculateSmileLevel landmarks
  let eyebrowRaise := calculateEyebrowRaise landmarks
  let leftEyeOpenness := calculateEyeOpenness landmarks .left
  let rightEyeOpenness := calculateEyeOpenness landmarks .right
  let mouthWidth := calculateMouthWidth landmarks
  let lipsPucker := calculateLipsPucker landmarks
  let headTilt := calculateHeadTilt landmarks
  let eyeDifference := mathAbs (leftEyeOpenness - rightEyeOpenness)
  if eyeDifference > 0.012 ∧ (leftEyeOpenness < 0.015 ∨ rightEyeOpenness < 0.015) then
    (.WINK, 0.9)
  else if lipsPucker > 0.015 ∧ mouthWidth < 0.12 then
    (.KISS, 0.85)
  else if mouthOpenness > 0.045 ∧ eyebrowRaise > 0.035 then
    (.SURPRISED, 0.9)
  else if mouthOpenness > 0.05 ∧ mouthWidth > 0.14 ∧ smileLevel > 0.01 then
    (.TONGUE_OUT, 0.8)
  else if smileLevel > 0.045 ∧ mouthWidth > 0.15 then
    (.VERY_HAPPY, 0.9)
  else if smileLevel > 0.025 then
    (.HAPPY, 0.85)
  else if smileLevel < -0.015 then
    (.SAD, 0.8)
  else if mathAbs headTilt > 0.03 ∧ eyebrowRaise > 0.025 ∧ eyebrowRaise < 0.04 then
    (.THINKING, 0.75)
  else if leftEyeOpenness < 0.018 ∧ rightEyeOpenness < 0.018 ∧ mathAbs eyeDifference < 0.005 then
    (.SLEEPY, 0.8)
  else if eyebrowRaise > 0.02 ∧ eyebrowRaise < 0.035 ∧ mathAbs smileLevel < 0.015 then
    (.CONFUSED, 0.7)
  else if eyebrowRaise < 0.025 ∧ smileLevel < 0.005 ∧ mouthWidth < 0.13 then
    (.ANGRY, 0.75)
  else
    (.NEUTRAL, 0.5)

/-- The `analyzeExpression` method of EmojiMatcher.ts, with the instance state passed
explicitly: returns the post-call state and the result record. -/
def analyzeExpression (state : MatcherState) (landmarks : Frame) :
    MatcherState × ExpressionResult :=
  if landmarks.length < 468 then
    (state, ⟨.NEUTRAL, emojiMap .NEUTRAL, 0⟩)
  else
    let d := detectExpression landmarks
    let detectedExpression := d.1
    let confidence := d.2
    let expressionStability :=
      if detectedExpression = state.lastExpression then state.expressionStability + 1 else 0
    let lastExpression :=
      if expressionStability ≥ 2 ∨ detectedExpression ≠ state.lastExpression then
        detectedExpression
      else
        state.lastExpression
    (⟨lastExpression, expressionStability⟩,
     ⟨lastExpression, emojiMap lastExpression, confidence⟩)

/-- The `horizontalOffset` of `calculateDirection`: `noseTip.x - faceCenterX`. -/
def horizontalOffset (landmarks : Frame) : ℚ :=
  (lm landmarks 1).x - ((lm landmarks 33).x + (lm landmarks 263).x) / 2

/-- The `verticalOffset` of `calculateDirection`: `noseTip.y - faceCenterY`. -/
def verticalOffset (landmarks : Frame) : ℚ :=
  (lm landmarks 1).y - ((lm landmarks 33).y + (lm landmarks 263).y + (lm landmarks 152).y) / 3

/-- The `calculateDirection` method of FaceTracker.ts, with the configured
`directionThreshold` passed explicitly. -/
def calculateDirection (threshold : ℚ) (landmarks : Frame) : HeadDirection :=
  if landmarks.length < 468 then
    .CENTER
  else
    let hOffset := horizontalOffset landmarks
    let vOffset := verticalOffset landmarks
    if mathAbs hOffset > mathAbs vOffset then
      if hOffset > threshold then .LEFT
      else if hOffset < -threshold then .RIGHT
      else .CENTER
    else
      if vOffset > threshold then .DOWN
      else if vOffset < -threshold then .UP
      else .CENTER

end EmojiCollector

namespace EmojiCollector

/-- The eight metric values extracted from one frame (spec section 4.2). -/
structure Metrics where
  mouthOpenness : ℚ
  smileLevel : ℚ
  eyebrowRaise : ℚ
  leftEyeOpenness : ℚ
  rightEyeOpenness : ℚ
  mouthWidth : ℚ
  lipsPucker : ℚ
  headTilt : ℚ
deriving DecidableEq, Repr

/-- The metric extraction step of `analyzeExpression`, bundled. -/
def computeMetrics (landmarks : Frame) : Metrics :=
  ⟨calculateMouthOpenness landmarks,
   calculateSmileLevel landmarks,
   calculateEyebrowRaise landmarks,
   calculateEyeOpenness landmarks .left,
   calculateEyeOpenness landmarks .right,
   calculateMouthWidth landmarks,
   calculateLipsPucker landmarks,
   calculateHeadTilt landmarks⟩

/-- The spec's ordered rule table for expression classification, stated from
the spec's own wording and thresholds: each entry pairs a fired/not-fired
flag with its label, in the spec's priority order. -/
def specRuleTable (m : Metrics) : List (Bool × Expression) :=
  [(decide (mathAbs (m.leftEyeOpenness - m.rightEyeOpenness) > 0.012 ∧
      (m.leftEyeOpenness < 0.015 ∨ m.rightEyeOpenness < 0.015)), .WINK),
   (decide (m.lipsPucker > 0.015 ∧ m.mouthWidth < 0.12), .KISS),
   (decide (m.mouthOpenness > 0.045 ∧ m.eyebrowRaise > 0.035), .SURPRISED),
   (decide (m.mouthOpenness > 0.05 ∧ m.mouthWidth > 0.14 ∧ m.smileLevel > 0.01), .TONGUE_OUT),
   (decide (m.smileLevel > 0.045 ∧ m.mouthWidth > 0.15), .VERY_HAPPY),
   (decide (m.smileLevel > 0.025), .HAPPY),
   (decide (m.smileLevel < -0.015), .SAD),
   (decide (mathAbs m.headTilt > 0.03 ∧ m.eyebrowRaise > 0.025 ∧ m.eyebrowRaise < 0.04), .THINKING),
   (decide (m.leftEyeOpenness < 0.018 ∧ m.rightEyeOpenness < 0.018 ∧
      mathAbs (m.leftEyeOpenness - m.rightEyeOpenness) < 0.005), .SLEEPY),
   (decide (m.eyebrowRaise > 0.02 ∧ m.eyebrowRaise < 0.035 ∧ mathAbs m.smileLevel < 0.015), .CONFUSED),
   (decide (m.eyebrowRaise < 0.025 ∧ m.smileLevel < 0.005 ∧ m.mouthWidth < 0.13), .ANGRY)]

/-- First-match evaluation of an ordered rule table; NEUTRAL when no rule fires. -/
def firstMatch : List (Bool × Expression) → Expression
  | [] => .NEUTRAL
  | (b, e) :: rest => if b then e else firstMatch rest

/-- The stability-counter update as the spec words it: increment on a repeat
of the committed label, reset to 0 otherwise. -/
def specStabilityCounter (state : MatcherState) (fresh : Expression) : Nat :=
  if fresh = state.lastExpression then state.expressionStability + 1 else 0

/-- The committed-label update as the spec words it: commit the fresh label
whenever the updated counter is ≥ 2 or the fresh label differs from the
previously committed one. -/
def specCommittedState (state : MatcherState) (fresh : Expression) : MatcherState :=
  let counter := specStabilityCounter state fresh
  ⟨if counter ≥ 2 ∨ fresh ≠ state.lastExpression then fresh else state.lastExpression,
   counter⟩

/-- The all-zero 468-point frame. -/
def zeroFrame : Frame := List.replicate 468 (⟨0, 0, 0⟩ : Landmark)

/-- The 468-point mock frame of the repository's unit tests: every point at
(0.5, 0.5), eyes at (0.4, 0.4) / (0.6, 0.4), chin at (0.5, 0.7), and the
given nose tip at index 1. -/
def mockFrame (noseTip : Landmark) : Frame :=
  ((((List.replicate 468 (⟨0.5, 0.5, 0⟩ : Landmark)).set 1 noseTip).set 33
      ⟨0.4, 0.4, 0⟩).set 263 ⟨0.6, 0.4, 0⟩).set 152 ⟨0.5, 0.7, 0⟩

/-- A 468-point frame with all coordinates in [0, 1] whose eye x-gap is
exactly -1e-4: left eye at x = 0.0001, right eye at x = 0. -/
def epsFrame : Frame :=
  (List.replicate 468 (⟨0, 0, 0⟩ : Landmark)).set 33 ⟨0.0001, 0, 0⟩

end EmojiCollector

namespace EmojiCollector

theorem lm_set_self (f : Frame) (i : Nat) (p : Landmark) (h : i < f.length) :
    lm (f.set i p) i = p := by
  rw [lm, List.getD_eq_getElem?_getD]
  simp [List.getElem?_set_self, List.getElem?_eq_getElem h, h]

theorem lm_set_other (f : Frame) (i j : Nat) (p : Landmark) (h : i ≠ j) :
    lm (f.set i p) j = lm f j := by
  rw [lm, lm, List.getD_eq_getElem?_getD, List.getD_eq_getElem?_getD, List.getElem?_set_ne h]

theorem lm_replicate (n i : Nat) (p : Landmark) (h : i < n) :
    lm (List.replicate n p) i = p := by
  rw [lm, List.getD_eq_getElem?_getD, List.getElem?_replicate, if_pos h, Option.getD_some]

theorem length_zeroFrame : zeroFrame.length = 468 := by
  rw [zeroFrame, List.length_replicate]

theorem length_mockFrame (noseTip : Landmark) : (mockFrame noseTip).length = 468 := by
  rw [mockFrame]
  simp [List.length_set, List.length_replicate]

theorem length_epsFrame : epsFrame.length = 468 := by
  rw [epsFrame]
  simp [List.length_set, List.length_replicate]

theorem lm_zeroFrame (i : Nat) (h : i < 468) : lm zeroFrame i = ⟨0, 0, 0⟩ :=
  lm_replicate _ _ _ h

theorem lm_mockFrame_1 (noseTip : Landmark) : lm (mockFrame noseTip) 1 = noseTip := by
  rw [mockFrame, lm_set_other _ _ _ _ (by norm_num), lm_set_other _ _ _ _ (by norm_num),
    lm_set_other _ _ _ _ (by norm_num), lm_set_self _ _ _ (by simp)]

theorem lm_mockFrame_33 (noseTip : Landmark) : lm (mockFrame noseTip) 33 = ⟨0.4, 0.4, 0⟩ := by
  rw [mockFrame, lm_set_other _ _ _ _ (by norm_num), lm_set_other _ _ _ _ (by norm_num),
    lm_set_self _ _ _ (by simp)]

theorem lm_mockFrame_263 (noseTip : Landmark) : lm (mockFrame noseTip) 263 = ⟨0.6, 0.4, 0⟩ := by
  rw [mockFrame, lm_set_other _ _ _ _ (by norm_num), lm_set_self _ _ _ (by simp)]

theorem lm_mockFrame_152 (noseTip : Landmark) : lm (mockFrame noseTip) 152 = ⟨0.5, 0.7, 0⟩ := by
  rw [mockFrame, lm_set_self _ _ _ (by simp)]

theorem lm_epsFrame_33 : lm epsFrame 33 = ⟨0.0001, 0, 0⟩ := by
  rw [epsFrame, lm_set_self _ _ _ (by simp)]

theorem lm_epsFrame_other (i : Nat) (h33 : 33 ≠ i) (h : i < 468) :
    lm epsFrame i = ⟨0, 0, 0⟩ := by
  rw [epsFrame, lm_set_other _ _ _ _ h33, lm_replicate _ _ _ h]

theorem horizontalOffset_mockFrame (noseTip : Landmark) :
    horizontalOffset (mockFrame noseTip) = noseTip.x - 0.5 := by
  rw [horizontalOffset, lm_mockFrame_1, lm_mockFrame_33, lm_mockFrame_263]
  norm_num

theorem verticalOffset_mockFrame (noseTip : Landmark) :
    verticalOffset (mockFrame noseTip) = noseTip.y - 0.5 := by
  rw [verticalOffset, lm_mockFrame_1, lm_mockFrame_33, lm_mockFrame_263, lm_mockFrame_152]
  norm_num

end EmojiCollector

namespace EmojiCollector

/-- C4 (counterexample): on the spec's own worked example — eyes at
(0.4, 0.4)/(0.6, 0.4), chin (0.5, 0.7), nose tip (0.7, 0.5), threshold
0.15 — the horizontal offset is 0.2, yet `calculateDirection` does NOT
return RIGHT as the spec's example asserts. -/
theorem c4_direction_example_counterexample :
    horizontalOffset (mockFrame ⟨0.7, 0.5, 0⟩) = 0.2 ∧
    verticalOffset (mockFrame ⟨0.7, 0.5, 0⟩) = 0 ∧
    calculateDirection 0.15 (mockFrame ⟨0.7, 0.5, 0⟩) ≠ HeadDirection.RIGHT := by
  refine ⟨?_, ?_, ?_⟩
  · rw [horizontalOffset_mockFrame]; norm_num
  · rw [verticalOffset_mockFrame]; norm_num
  · rw [calculateDirection, if_neg (by rw [length_mockFrame]; norm_num)]
    simp only [horizontalOffset_mockFrame, verticalOffset_mockFrame, mathAbs]
    norm_num
    decide

/-- C4 (amended): on that worked example the mirrored mapping sends the
positive horizontal offset 0.2 > 0.15 to LEFT. -/
theorem c4_direction_example_left :
    calculateDirection 0.15 (mockFrame ⟨0.7, 0.5, 0⟩) = HeadDirection.LEFT := by
  rw [calculateDirection, if_neg (by rw [length_mockFrame]; norm_num)]
  simp only [horizontalOffset_mockFrame, verticalOffset_mockFrame, mathAbs]
  norm_num

end EmojiCollector

namespace EmojiCollector

theorem calculateDirection_eq (t : ℚ) (f : Frame) (h : ¬f.length < 468) :
    calculateDirection t f =
      if mathAbs (horizontalOffset f) > mathAbs (verticalOffset f) then
        if horizontalOffset f > t then HeadDirection.LEFT
        else if horizontalOffset f < -t then HeadDirection.RIGHT
        else HeadDirection.CENTER
      else
        if verticalOffset f > t then HeadDirection.DOWN
        else if verticalOffset f < -t then HeadDirection.UP
        else HeadDirection.CENTER := by
  rw [calculateDirection, if_neg h]

/-- C3: for every 468-point frame and nonnegative threshold (the spec's
direction threshold is a minimum offset magnitude): when the horizontal axis
wins the tie-break, offset > threshold yields LEFT and offset < -threshold
yields RIGHT (mirrored mapping); when the vertical axis wins, offset >
threshold yields DOWN and offset < -threshold yields UP; otherwise CENTER. -/
theorem c3_direction_axis_mapping (f : Frame) (t : ℚ) (hlen : 468 ≤ f.length) (ht : 0 ≤ t) :
    (|horizontalOffset f| > |verticalOffset f| →
      (horizontalOffset f > t → calculateDirection t f = HeadDirection.LEFT) ∧
      (horizontalOffset f < -t → calculateDirection t f = HeadDirection.RIGHT) ∧
      (-t ≤ horizontalOffset f → horizontalOffset f ≤ t →
        calculateDirection t f = HeadDirection.CENTER)) ∧
    (¬|horizontalOffset f| > |verticalOffset f| →
      (verticalOffset f > t → calculateDirection t f = HeadDirection.DOWN) ∧
      (verticalOffset f < -t → calculateDirection t f = HeadDirection.UP) ∧
      (-t ≤ verticalOffset f → verticalOffset f ≤ t →
        calculateDirection t f = HeadDirection.CENTER)) := by
  rw [calculateDirection_eq t f (by omega)]
  simp only [mathAbs_eq_abs]
  constructor
  · intro hw
    rw [if_pos hw]
    refine ⟨fun hgt => by rw [if_pos hgt],
      fun hlt => by rw [if_neg (not_lt.mpr (by linarith)), if_pos hlt],
      fun h1 h2 => by rw [if_neg (not_lt.mpr (by linarith)), if_neg (not_lt.mpr (by linarith))]⟩
  · intro hw
    rw [if_neg hw]
    refine ⟨fun hgt => by rw [if_pos hgt],
      fun hlt => by rw [if_neg (not_lt.mpr (by linarith)), if_pos hlt],
      fun h1 h2 => by rw [if_neg (not_lt.mpr (by linarith)), if_neg (not_lt.mpr (by linarith))]⟩

/-- Witness for C3 at the unit tests' mock frame and threshold 0.15. -/
theorem c3_direction_axis_mapping_witness :
    468 ≤ (mockFrame ⟨0.7, 0.5, 0⟩).length ∧ (0 : ℚ) ≤ 0.15 ∧
    ((|horizontalOffset (mockFrame ⟨0.7, 0.5, 0⟩)| > |verticalOffset (mockFrame ⟨0.7, 0.5, 0⟩)| →
      (horizontalOffset (mockFrame ⟨0.7, 0.5, 0⟩) > 0.15 →
        calculateDirection 0.15 (mockFrame ⟨0.7, 0.5, 0⟩) = HeadDirection.LEFT) ∧
      (horizontalOffset (mockFrame ⟨0.7, 0.5, 0⟩) < -0.15 →
        calculateDirection 0.15 (mockFrame ⟨0.7, 0.5, 0⟩) = HeadDirection.RIGHT) ∧
      (-0.15 ≤ horizontalOffset (mockFrame ⟨0.7, 0.5, 0⟩) →
        horizontalOffset (mockFrame ⟨0.7, 0.5, 0⟩) ≤ 0.15 →
        calculateDirection 0.15 (mockFrame ⟨0.7, 0.5, 0⟩) = HeadDirection.CENTER)) ∧
    (¬|horizontalOffset (mockFrame ⟨0.7, 0.5, 0⟩)| > |verticalOffset (mockFrame ⟨0.7, 0.5, 0⟩)| →
      (verticalOffset (mockFrame ⟨0.7, 0.5, 0⟩) > 0.15 →
        calculateDirection 0.15 (mockFrame ⟨0.7, 0.5, 0⟩) = HeadDirection.DOWN) ∧
      (verticalOffset (mockFrame ⟨0.7, 0.5, 0⟩) < -0.15 →
        calculateDirection 0.15 (mockFrame ⟨0.7, 0.5, 0⟩) = HeadDirection.UP) ∧
      (-0.15 ≤ verticalOffset (mockFrame ⟨0.7, 0.5, 0⟩) →
        verticalOffset (mockFrame ⟨0.7, 0.5, 0⟩) ≤ 0.15 →
        calculateDirection 0.15 (mockFrame ⟨0.7, 0.5, 0⟩) = HeadDirection.CENTER))) :=
  ⟨by simp [length_mockFrame], by norm_num,
   c3_direction_axis_mapping (mockFrame ⟨0.7, 0.5, 0⟩) 0.15 (by simp [length_mockFrame])
     (by norm_num)⟩

/-- C5 (counterexample): a 468-point frame with equal offset magnitudes
(both 0.2, beyond threshold 0.15) is classified DOWN — the vertical label —
not the horizontal label LEFT the claim requires. -/
theorem c5_tiebreak_counterexample :
    |horizontalOffset (mockFrame ⟨0.7, 0.7, 0⟩)| = |verticalOffset (mockFrame ⟨0.7, 0.7, 0⟩)| ∧
    horizontalOffset (mockFrame ⟨0.7, 0.7, 0⟩) > 0.15 ∧
    calculateDirection 0.15 (mockFrame ⟨0.7, 0.7, 0⟩) = HeadDirection.DOWN ∧
    HeadDirection.DOWN ≠ HeadDirection.LEFT := by
  refine ⟨?_, ?_, ?_, by decide⟩
  · rw [horizontalOffset_mockFrame, verticalOffset_mockFrame]
  · rw [horizontalOffset_mockFrame]; norm_num
  · rw [calculateDirection_eq _ _ (by rw [length_mockFrame]; norm_num)]
    simp only [horizontalOffset_mockFrame, verticalOffset_mockFrame, mathAbs]
    norm_num

/-- C5 (amended): on equal offset magnitudes the strict comparison in the
code sends the frame to the vertical branch: the result is the vertical
axis's label (DOWN/UP/CENTER against the threshold), never the horizontal
one. -/
theorem c5_tiebreak_amended (f : Frame) (t : ℚ) (hlen : 468 ≤ f.length)
    (heq : |horizontalOffset f| = |verticalOffset f|) :
    calculateDirection t f =
      if verticalOffset f > t then HeadDirection.DOWN
      else if verticalOffset f < -t then HeadDirection.UP
      else HeadDirection.CENTER := by
  have hnot : ¬mathAbs (horizontalOffset f) > mathAbs (verticalOffset f) := by
    rw [mathAbs_eq_abs, mathAbs_eq_abs, heq]
    exact lt_irrefl _
  rw [calculateDirection_eq t f (by omega), if_neg hnot]

/-- Witness for C5's amended theorem at the equal-offset mock frame. -/
theorem c5_tiebreak_amended_witness :
    468 ≤ (mockFrame ⟨0.7, 0.7, 0⟩).length ∧
    |horizontalOffset (mockFrame ⟨0.7, 0.7, 0⟩)| = |verticalOffset (mockFrame ⟨0.7, 0.7, 0⟩)| ∧
    calculateDirection 0.15 (mockFrame ⟨0.7, 0.7, 0⟩) =
      (if verticalOffset (mockFrame ⟨0.7, 0.7, 0⟩) > 0.15 then HeadDirection.DOWN
       else if verticalOffset (mockFrame ⟨0.7, 0.7, 0⟩) < -0.15 then HeadDirection.UP
       else HeadDirection.CENTER) :=
  ⟨by simp [length_mockFrame],
   by rw [horizontalOffset_mockFrame, verticalOffset_mockFrame],
   c5_tiebreak_amended (mockFrame ⟨0.7, 0.7, 0⟩) 0.15 (by simp [length_mockFrame])
     (by rw [horizontalOffset_mockFrame, verticalOffset_mockFrame])⟩

end EmojiCollector

namespace EmojiCollector

/-- C6: a frame with fewer than 468 points degrades both classifiers — the
direction is CENTER and the expression result is NEUTRAL with confidence 0
(totality of the embedding rules out any exception), for every threshold and
prior rolling state. -/
theorem c6_short_frame_defaults (f : Frame) (t : ℚ) (s : MatcherState)
    (h : f.length < 468) :
    calculateDirection t f = HeadDirection.CENTER ∧
    (analyzeExpression s f).2 = ⟨Expression.NEUTRAL, emojiMap Expression.NEUTRAL, 0⟩ := by
  constructor
  · rw [calculateDirection, if_pos h]
  · rw [analyzeExpression, if_pos h]

/-- Witness for C6 at the empty frame. -/
theorem c6_short_frame_defaults_witness :
    ([] : Frame).length < 468 ∧
    (calculateDirection 0.15 ([] : Frame) = HeadDirection.CENTER ∧
     (analyzeExpression initialMatcherState ([] : Frame)).2 =
       ⟨Expression.NEUTRAL, emojiMap Expression.NEUTRAL, 0⟩) :=
  ⟨by simp, c6_short_frame_defaults [] 0.15 initialMatcherState (by simp)⟩

/-- C7 (counterexample): a 468-point frame with every x-coordinate in [0, 1]
— left eye x = 0.0001, right eye x = 0 — makes the head-tilt denominator
(rightEye.x - leftEye.x + 1e-4) exactly zero, so the epsilon term does not
rule out division by zero on its own. -/
theorem c7_epsilon_counterexample :
    epsFrame.length = 468 ∧
    (∀ p ∈ epsFrame, 0 ≤ p.x ∧ p.x ≤ 1) ∧
    headTiltDenominator epsFrame = 0 := by
  refine ⟨length_epsFrame, ?_, ?_⟩
  · intro p hp
    rw [epsFrame] at hp
    rcases List.mem_or_eq_of_mem_set hp with h | h
    · rw [List.eq_of_mem_replicate h]
      norm_num
    · rw [h]
      norm_num
  · rw [headTiltDenominator, lm_epsFrame_33, lm_epsFrame_other 263 (by norm_num) (by norm_num)]
    norm_num

/-- C7 (amended): the denominator is nonzero whenever the frame places the
right-eye landmark (index 263) at an x-coordinate at least that of the
left-eye landmark (index 33) — then it is at least 1e-4 > 0; it vanishes
only when rightEye.x - leftEye.x is exactly -1e-4. -/
theorem c7_epsilon_guard_amended (f : Frame) (_hlen : 468 ≤ f.length)
    (hx : (lm f 33).x ≤ (lm f 263).x) :
    headTiltDenominator f ≠ 0 := by
  rw [headTiltDenominator]
  have h4 : (0 : ℚ) < 0.0001 := by norm_num
  exact ne_of_gt (by linarith)

/-- Witness for C7's amended theorem at the all-zero frame. -/
theorem c7_epsilon_guard_amended_witness :
    468 ≤ zeroFrame.length ∧ (lm zeroFrame 33).x ≤ (lm zeroFrame 263).x ∧
    headTiltDenominator zeroFrame ≠ 0 :=
  ⟨by simp [length_zeroFrame],
   by rw [lm_zeroFrame 33 (by norm_num), lm_zeroFrame 263 (by norm_num)],
   c7_epsilon_guard_amended zeroFrame (by simp [length_zeroFrame])
     (by rw [lm_zeroFrame 33 (by norm_num), lm_zeroFrame 263 (by norm_num)])⟩

/-- C8: `calculateDirection` is a pure function of its frame and threshold
arguments — identical inputs give identical outputs. -/
theorem c8_direction_deterministic (t : ℚ) (f₁ f₂ : Frame) (h : f₁ = f₂) :
    calculateDirection t f₁ = calculateDirection t f₂ := by
  rw [h]

/-- Witness for C8 at the all-zero frame. -/
theorem c8_direction_deterministic_witness :
    zeroFrame = zeroFrame ∧
    calculateDirection 0.15 zeroFrame = calculateDirection 0.15 zeroFrame :=
  ⟨rfl, c8_direction_deterministic 0.15 zeroFrame zeroFrame rfl⟩

/-- C9: on a frame with fewer than 468 points, `analyzeExpression` returns
before touching the rolling state, which is left exactly as it was. -/
theorem c9_short_frame_state_unchanged (s : MatcherState) (f : Frame)
    (h : f.length < 468) :
    (analyzeExpression s f).1 = s := by
  rw [analyzeExpression, if_pos h]

/-- Witness for C9 at a non-initial state and the empty frame. -/
theorem c9_short_frame_state_unchanged_witness :
    ([] : Frame).length < 468 ∧
    (analyzeExpression ⟨Expression.HAPPY, 5⟩ ([] : Frame)).1 = ⟨Expression.HAPPY, 5⟩ :=
  ⟨by simp, c9_short_frame_state_unchanged ⟨Expression.HAPPY, 5⟩ [] (by simp)⟩

end EmojiCollector

namespace EmojiCollector

/-- C1: on a full frame, `analyzeExpression` from any rolling state performs
exactly the spec's hysteresis update — counter incremented on a repeated
fresh label, else reset; the committed label becomes the fresh label whenever
the updated counter is at least 2 or the fresh label differs from the
previously committed one — and reports the updated committed label, its
fixed glyph, and the call's raw confidence. -/
theorem c1_stability_filter (s : MatcherState) (f : Frame) (h : 468 ≤ f.length) :
    analyzeExpression s f =
      (specCommittedState s (detectExpression f).1,
       ⟨(specCommittedState s (detectExpression f).1).lastExpression,
        emojiMap (specCommittedState s (detectExpression f).1).lastExpression,
        (detectExpression f).2⟩) := by
  rw [analyzeExpression, if_neg (by omega)]
  simp only [specCommittedState, specStabilityCounter]

/-- Witness for C1 at the HAPPY/0 state and the all-zero frame. -/
theorem c1_stability_filter_witness :
    468 ≤ zeroFrame.length ∧
    analyzeExpression ⟨Expression.HAPPY, 0⟩ zeroFrame =
      (specCommittedState ⟨Expression.HAPPY, 0⟩ (detectExpression zeroFrame).1,
       ⟨(specCommittedState ⟨Expression.HAPPY, 0⟩ (detectExpression zeroFrame).1).lastExpression,
        emojiMap (specCommittedState ⟨Expression.HAPPY, 0⟩ (detectExpression zeroFrame).1).lastExpression,
        (detectExpression zeroFrame).2⟩) :=
  ⟨by simp [length_zeroFrame],
   c1_stability_filter ⟨Expression.HAPPY, 0⟩ zeroFrame (by simp [length_zeroFrame])⟩

end EmojiCollector

namespace EmojiCollector

theorem mathAbs_mathAbs (q : ℚ) : mathAbs (mathAbs q) = mathAbs q := by
  rw [mathAbs_eq_abs, mathAbs_eq_abs, abs_abs]

/-- C2: on a full frame the freshly detected label (before the stability
filter) is the first match of the spec's ordered rule table over the eight
extracted metrics, and NEUTRAL when no rule fires. -/
theorem c2_ordered_rule_chain (f : Frame) (_h : 468 ≤ f.length) :
    (detectExpression f).1 = firstMatch (specRuleTable (computeMetrics f)) := by
  unfold detectExpression computeMetrics
  generalize calculateMouthOpenness f = mo
  generalize calculateSmileLevel f = sl
  generalize calculateEyebrowRaise f = er
  generalize calculateEyeOpenness f .left = le
  generalize calculateEyeOpenness f .right = re
  generalize calculateMouthWidth f = mw
  generalize calculateLipsPucker f = lp
  generalize calculateHeadTilt f = ht
  simp only [specRuleTable, firstMatch, decide_eq_true_eq, mathAbs_mathAbs,
    apply_ite Prod.fst]

/-- Witness for C2 at the all-zero frame. -/
theorem c2_ordered_rule_chain_witness :
    468 ≤ zeroFrame.length ∧
    (detectExpression zeroFrame).1 = firstMatch (specRuleTable (computeMetrics zeroFrame)) :=
  ⟨by simp [length_zeroFrame], c2_ordered_rule_chain zeroFrame (by simp [length_zeroFrame])⟩

end EmojiCollector

namespace EmojiCollector

theorem calculateEyeOpenness_left_eq (f : Frame) :
    calculateEyeOpenness f .left =
      (0 + mathAbs ((lm f 145).y - (lm f 159).y) + mathAbs ((lm f 144).y - (lm f 158).y) +
        mathAbs ((lm f 143).y - (lm f 157).y) + mathAbs ((lm f 153).y - (lm f 173).y)) /
        ((4 : Nat) : ℚ) := rfl

theorem calculateEyeOpenness_right_eq (f : Frame) :
    calculateEyeOpenness f .right =
      (0 + mathAbs ((lm f 374).y - (lm f 386).y) + mathAbs ((lm f 373).y - (lm f 385).y) +
        mathAbs ((lm f 372).y - (lm f 384).y) + mathAbs ((lm f 380).y - (lm f 398).y)) /
        ((4 : Nat) : ℚ) := rfl

/-- C10: both classifiers read only landmark indices at most 398 — frames of
length at least 468 that agree on positions 0..398 are classified
identically — and under that length precondition every optional access at
those indices is in bounds. -/
theorem c10_reads_in_bounds (f g : Frame) (hf : 468 ≤ f.length) (hg : 468 ≤ g.length)
    (hagree : ∀ i : Nat, i ≤ 398 → lm f i = lm g i) :
    (∀ i : Nat, i ≤ 398 → (f[i]?).isSome) ∧
    detectExpression f = detectExpression g ∧
    ∀ t : ℚ, calculateDirection t f = calculateDirection t g := by
  refine ⟨?_, ?_, ?_⟩
  · intro i hi
    simp [List.getElem?_eq_getElem (show i < f.length by omega)]
  · unfold detectExpression calculateMouthOpenness calculateSmileLevel calculateEyebrowRaise
      calculateMouthWidth calculateLipsPucker calculateHeadTilt headTiltDenominator
    rw [calculateEyeOpenness_left_eq f, calculateEyeOpenness_left_eq g,
      calculateEyeOpenness_right_eq f, calculateEyeOpenness_right_eq g]
    rw [hagree 0 (by norm_num), hagree 12 (by norm_num), hagree 13 (by norm_num),
      hagree 14 (by norm_num), hagree 15 (by norm_num), hagree 17 (by norm_num),
      hagree 33 (by norm_num), hagree 61 (by norm_num), hagree 63 (by norm_num),
      hagree 70 (by norm_num), hagree 105 (by norm_num), hagree 143 (by norm_num),
      hagree 144 (by norm_num), hagree 145 (by norm_num), hagree 153 (by norm_num),
      hagree 157 (by norm_num), hagree 158 (by norm_num), hagree 159 (by norm_num),
      hagree 173 (by norm_num), hagree 263 (by norm_num), hagree 291 (by norm_num),
      hagree 293 (by norm_num), hagree 300 (by norm_num), hagree 334 (by norm_num),
      hagree 372 (by norm_num), hagree 373 (by norm_num), hagree 374 (by norm_num),
      hagree 380 (by norm_num), hagree 384 (by norm_num), hagree 385 (by norm_num),
      hagree 386 (by norm_num), hagree 398 (by norm_num)]
  · intro t
    rw [calculateDirection_eq t f (by omega), calculateDirection_eq t g (by omega)]
    unfold horizontalOffset verticalOffset
    rw [hagree 1 (by norm_num), hagree 33 (by norm_num), hagree 263 (by norm_num),
      hagree 152 (by norm_num)]

end EmojiCollector

namespace EmojiCollector

/-- Witness for C10: the all-zero frame against the same frame altered only
at index 420 (beyond every read index). -/
theorem c10_reads_in_bounds_witness :
    468 ≤ zeroFrame.length ∧
    468 ≤ (zeroFrame.set 420 ⟨1, 1, 1⟩).length ∧
    (∀ i : Nat, i ≤ 398 → lm zeroFrame i = lm (zeroFrame.set 420 ⟨1, 1, 1⟩) i) ∧
    ((∀ i : Nat, i ≤ 398 → (zeroFrame[i]?).isSome) ∧
     detectExpression zeroFrame = detectExpression (zeroFrame.set 420 ⟨1, 1, 1⟩) ∧
     ∀ t : ℚ, calculateDirection t zeroFrame = calculateDirection t (zeroFrame.set 420 ⟨1, 1, 1⟩)) :=
  ⟨by simp [length_zeroFrame],
   by simp [List.length_set, length_zeroFrame],
   fun i hi => (lm_set_other zeroFrame 420 i ⟨1, 1, 1⟩ (by omega)).symm,
   c10_reads_in_bounds zeroFrame (zeroFrame.set 420 ⟨1, 1, 1⟩)
     (by simp [length_zeroFrame])
     (by simp [List.length_set, length_zeroFrame])
     (fun i hi => (lm_set_other zeroFrame 420 i ⟨1, 1, 1⟩ (by omega)).symm)⟩

end EmojiCollector
